import Mathlib

/-!
Verification of the thumbnailer MIME detection engine and dispatch layer
(`mimes.go`).  Bytes are modelled as `Nat`, byte slices as `List Nat`,
Go strings holding labels/extensions as `String`, and Go `error` values
as an inductive type.  All definitions are translated from the source.
-/

namespace Thumbnailer

/-- A Go `error` value as returned by this package: either the package's
own `UnsupportedMIMEError` (a string type carrying the offending label),
or an error propagated verbatim from the single `rs.Read` call. -/
inductive GoError where
  | unsupportedMIME : String → GoError
  | ioError : String → GoError
deriving DecidableEq

/-- Rendering of `UnsupportedMIMEError.Error()`:
`fmt.Sprintf("unsupported MIME type: %s", string(u))`.  An `ioError`
renders as whatever message the underlying reader produced. -/
def GoError.message : GoError → String
  | .unsupportedMIME u => "unsupported MIME type: " ++ u
  | .ioError s => s

/-- Discriminator: is this error the package's `UnsupportedMIMEError`? -/
def GoError.isUnsupportedMIME : GoError → Bool
  | .unsupportedMIME _ => true
  | .ioError _ => false

/-- The label carried by an `UnsupportedMIMEError` (the Go string value
underlying the error type); empty for other errors. -/
def GoError.label : GoError → String
  | .unsupportedMIME u => u
  | .ioError _ => ""

/-- `bytes.Contains(hay, needle)`: the needle occurs as a contiguous
subsequence of the haystack. -/
def containsBytes (needle : List Nat) : List Nat → Bool
  | [] => needle.isPrefixOf []
  | c :: t => needle.isPrefixOf (c :: t) || containsBytes needle t

/-- The polymorphic `Matcher` interface of `mimes.go`, restricted to the
four implementing variants that occur in the built-in registry. -/
inductive Matcher where
  | exactSig (ext mime : String) (sig : List Nat)
  | maskedSig (ext mime : String) (mask pat : List Nat)
  | webmOrMKVSig
  | mp4Sig
deriving DecidableEq

/-- `maskedSig.Match`: fails when the data is shorter than the mask,
otherwise requires `data[i] & mask[i] == pat[i]` for every mask index. -/
def maskedMatch (ext mime : String) (mask pat : List Nat)
    (data : List Nat) : String × String :=
  if data.length < mask.length then ("", "")
  else if ∀ i, i < mask.length → data.getD i 0 &&& mask.getD i 0 = pat.getD i 0 then
    (mime, ext)
  else ("", "")

/-- The EBML header `\x1A\x45\xDF\xA3`. -/
def ebmlHeader : List Nat := [0x1A, 0x45, 0xDF, 0xA3]

/-- The ASCII bytes of `"webm"`. -/
def webmBytes : List Nat := [0x77, 0x65, 0x62, 0x6D]

/-- The ASCII bytes of `"matroska"`. -/
def matroskaBytes : List Nat := [0x6D, 0x61, 0x74, 0x72, 0x6F, 0x73, 0x6B, 0x61]

/-- `webmOrMKVSig.Match`: requires at least 8 bytes beginning with the
EBML header, then searches `data[4:]` for `"webm"`, then `"matroska"`. -/
def webmOrMKVMatch (data : List Nat) : String × String :=
  if data.length < 8 ∨ ¬ ebmlHeader.isPrefixOf data then ("", "")
  else if containsBytes webmBytes (data.drop 4) then ("video/webm", "webm")
  else if containsBytes matroskaBytes (data.drop 4) then ("video/x-matroska", "mkv")
  else ("", "")

/-- The ASCII bytes of `"ftyp"`. -/
def ftypBytes : List Nat := [0x66, 0x74, 0x79, 0x70]

/-- The ASCII bytes of `"mp4"`. -/
def mp4Bytes : List Nat := [0x6D, 0x70, 0x34]

/-- `binary.BigEndian.Uint32(data[:4])`. -/
def be32 (data : List Nat) : Nat :=
  data.getD 0 0 * 16777216 + data.getD 1 0 * 65536 +
    data.getD 2 0 * 256 + data.getD 3 0

/-- The brand-scanning loop of `mp4Sig.Match`: for `st` from the given
start in steps of 4 while `st < boxSize`, skip `st = 12`, and succeed
when `data[st:st+3] == "mp4"`. -/
def mp4Loop (data : List Nat) (boxSize st : Nat) : Bool :=
  if st < boxSize then
    if st = 12 then mp4Loop data boxSize (st + 4)
    else if (data.drop st).take 3 = mp4Bytes then true
    else mp4Loop data boxSize (st + 4)
  else false
termination_by boxSize - st
decreasing_by all_goals omega

/-- `mp4Sig.Match`: requires at least 12 bytes, a big-endian box size that
is a multiple of 4 and does not exceed the data length, the literal
`"ftyp"` at bytes 4..8, and then runs the brand-scanning loop from 8. -/
def mp4Match (data : List Nat) : String × String :=
  if data.length < 12 then ("", "")
  else if be32 data % 4 ≠ 0 ∨ data.length < be32 data ∨ (data.drop 4).take 4 ≠ ftypBytes then
    ("", "")
  else if mp4Loop data (be32 data) 8 then ("video/mp4", "mp4")
  else ("", "")

/-- `Matcher.Match`: dispatch to the variant's match function.  An
`exactSig` matches iff its signature is a prefix of the data
(`bytes.HasPrefix`). -/
def Matcher.Match : Matcher → List Nat → String × String
  | .exactSig ext mime sig, data =>
      if sig.isPrefixOf data then (mime, ext) else ("", "")
  | .maskedSig ext mime mask pat, data => maskedMatch ext mime mask pat data
  | .webmOrMKVSig, data => webmOrMKVMatch data
  | .mp4Sig, data => mp4Match data

/-- The built-in matcher registry of `mimes.go`, in registration order.
The two AAC signatures are the UTF-8 bytes of the Go source literals
`"ÿñ"` and `"ÿù"`. -/
def matchers : List Matcher := [
  .exactSig "jpg" "image/jpeg" [0xFF, 0xD8, 0xFF],
  .exactSig "png" "image/png" [0x89, 0x50, 0x4E, 0x47, 0x0D, 0x0A, 0x1A, 0x0A],
  .exactSig "gif" "image/gif" [0x47, 0x49, 0x46, 0x38, 0x37, 0x61],
  .exactSig "gif" "image/gif" [0x47, 0x49, 0x46, 0x38, 0x39, 0x61],
  .maskedSig "webp" "image/webp"
    [0xFF, 0xFF, 0xFF, 0xFF, 0x00, 0x00, 0x00, 0x00, 0xFF, 0xFF, 0xFF, 0xFF, 0xFF, 0xFF]
    [0x52, 0x49, 0x46, 0x46, 0x00, 0x00, 0x00, 0x00, 0x57, 0x45, 0x42, 0x50, 0x56, 0x50],
  .maskedSig "ogg" "application/ogg"
    [0x4F, 0x67, 0x67, 0x53, 0x00]
    [0x4F, 0x67, 0x67, 0x53, 0x00],
  .webmOrMKVSig,
  .exactSig "pdf" "application/pdf" [0x25, 0x50, 0x44, 0x46, 0x2D],
  .maskedSig "mp3" "audio/mpeg" [0xFF, 0xFF, 0xFF] [0x49, 0x44, 0x33],
  .mp4Sig,
  .exactSig "aac" "audio/aac" [0xC3, 0xBF, 0xC3, 0xB1],
  .exactSig "aac" "audio/aac" [0xC3, 0xBF, 0xC3, 0xB9],
  .exactSig "bmp" "image/bmp" [0x42, 0x4D],
  .maskedSig "wav" "audio/wave"
    [0xFF, 0xFF, 0xFF, 0xFF, 0x00, 0x00, 0x00, 0x00, 0xFF, 0xFF, 0xFF, 0xFF]
    [0x52, 0x49, 0x46, 0x46, 0x00, 0x00, 0x00, 0x00, 0x57, 0x41, 0x56, 0x45],
  .maskedSig "avi" "video/avi"
    [0xFF, 0xFF, 0xFF, 0xFF, 0x00, 0x00, 0x00, 0x00, 0xFF, 0xFF, 0xFF, 0xFF]
    [0x52, 0x49, 0x46, 0x46, 0x00, 0x00, 0x00, 0x00, 0x41, 0x56, 0x49, 0x20],
  .exactSig "psd" "image/photoshop" [0x38, 0x42, 0x50, 0x53],
  .exactSig "flac" "audio/x-flac" [0x66, 0x4C, 0x61, 0x43],
  .exactSig "tiff" "image/tiff" [0x49, 0x49, 0x2A, 0x00],
  .exactSig "tiff" "image/tiff" [0x4D, 0x4D, 0x00, 0x2A],
  .exactSig "mov" "video/quicktime" [0x00, 0x00, 0x00, 0x14, 0x66, 0x74, 0x79, 0x70],
  .exactSig "wmv" "video/x-ms-wmv"
    [0x30, 0x26, 0xB2, 0x75, 0x8E, 0x66, 0xCF, 0x11, 0xA6, 0xD9],
  .exactSig "flv" "video/x-flv" [0x46, 0x4C, 0x56, 0x01],
  .exactSig "ico" "image/x-icon" [0x00, 0x00, 0x01, 0x00],
  .maskedSig "midi" "audio/midi"
    [0xFF, 0xFF, 0xFF, 0xFF, 0xFF, 0xFF, 0xFF, 0xFF]
    [0x4D, 0x54, 0x68, 0x64, 0x00, 0x00, 0x00, 0x06]]

/-- The matcher loop of `detectMimeType`: evaluate matchers in order,
breaking at the first non-empty mime; when nothing matched, the returned
pair is whatever the last matcher produced (the Go loop variables). -/
def matchLoop : List Matcher → List Nat → String × String
  | [], _ => ("", "")
  | [m], buf => m.Match buf
  | m :: m2 :: ms, buf =>
      let r := m.Match buf
      if r.1 = "" then matchLoop (m2 :: ms) buf else r

/-- The classification switch of `detectMimeType`, applied to the acquired
prefix: no match yields the octet-stream sentinel error; an accept set
that excludes the matched mime yields an error carrying that mime. -/
def classify (buf : List Nat) (accepted : Option (String → Bool)) :
    String × String × Option GoError :=
  let r := matchLoop matchers buf
  if r.1 = "" then
    (r.1, r.2, some (.unsupportedMIME "application/octet-stream"))
  else
    match accepted with
    | some acc =>
        if acc r.1 then (r.1, r.2, none) else (r.1, r.2, some (.unsupportedMIME r.1))
    | none => (r.1, r.2, none)

/-- Model of the `io.ReadSeeker` argument for the single `rs.Read` call
performed by `detectMimeType`: a read into a buffer of length `n` yields
`min n data.length` bytes of `data` and the error `readErr`. -/
structure ReadSeeker where
  data : List Nat
  readErr : Option GoError

/-- `detectMimeType`: with a non-nil buffer, truncate it to 512 bytes and
classify; with a stream, perform one read into a 512-byte buffer,
propagating a read error verbatim, and classify the bytes read. -/
def detectMimeType (buf : Option (List Nat)) (rs : ReadSeeker)
    (accepted : Option (String → Bool)) : String × String × Option GoError :=
  match buf with
  | some b => classify (b.take 512) accepted
  | none =>
      match rs.readErr with
      | some e => ("", "", some e)
      | none => classify (rs.data.take 512) accepted

/-- Modelled from the spec: the `Source` type is defined outside
`mimes.go`; it wraps the byte data plus the mime label once known. -/
structure Source where
  mime : String
  data : List Nat
deriving DecidableEq

/-- Modelled from the spec: the `Thumbnail` artifact type is defined
outside `mimes.go`; `Thumbnail{}` is its zero value. -/
structure Thumbnail where
  data : List Nat
deriving DecidableEq

/-- The Go zero value `Thumbnail{}`. -/
def zeroThumbnail : Thumbnail := ⟨[]⟩

/-- Modelled from the spec: processing options are out of scope and
opaque to detection and dispatch. -/
structure Options where
deriving DecidableEq

/-- The `Processor` function type of `mimes.go`. -/
def Processor := Source → Options → Source × Thumbnail × Option GoError

/-- The image-category labels of the `processFile` switch. -/
def imageMimes : List String :=
  ["image/jpeg", "image/png", "image/gif", "image/webp", "application/pdf",
   "image/bmp", "image/photoshop", "image/tiff", "image/x-icon"]

/-- The audio-category labels of the `processFile` switch. -/
def audioMimes : List String :=
  ["audio/mpeg", "audio/aac", "audio/wave", "audio/x-flac", "audio/midi"]

/-- The video-category labels of the `processFile` switch. -/
def videoMimes : List String :=
  ["application/ogg", "video/webm", "video/x-matroska", "video/mp4",
   "video/avi", "video/quicktime", "video/x-ms-wmv", "video/x-flv"]

/-- `processFile`: an exact-label override processor takes precedence;
otherwise the label's category handler runs; otherwise the source is
returned unchanged with a zero thumbnail and an unsupported-type error.
The category handlers (`processImage`, `processAudio`, `processVideo`)
live outside `mimes.go` and are passed as opaque parameters, as is the
override map `mimeProcessors`. -/
def processFile (procImage procAudio procVideo : Processor)
    (mimeProcessors : String → Option Processor)
    (src : Source) (opts : Options) : Source × Thumbnail × Option GoError :=
  match mimeProcessors src.mime with
  | some override => override src opts
  | none =>
      if src.mime ∈ imageMimes then procImage src opts
      else if src.mime ∈ audioMimes then procAudio src opts
      else if src.mime ∈ videoMimes then procVideo src opts
      else (src, zeroThumbnail, some (.unsupportedMIME src.mime))

/-! ### Helper lemmas -/

lemma isPrefixOf_eq_true_iff (l₁ l₂ : List Nat) :
    l₁.isPrefixOf l₂ = true ↔ l₁ <+: l₂ :=
  List.isPrefixOf_iff_prefix

lemma matchLoop_all_empty (ms : List Matcher) (buf : List Nat)
    (h : ∀ m ∈ ms, m.Match buf = ("", "")) : matchLoop ms buf = ("", "") := by
  induction ms with
  | nil => simp [matchLoop]
  | cons m ms ih =>
    cases ms with
    | nil => simpa [matchLoop] using h m (by simp)
    | cons m2 ms2 =>
      have hm := h m (by simp)
      have hrest := ih (fun x hx => h x (by simp [hx]))
      simp [matchLoop, hm, hrest]

lemma match_of_short (m : Matcher) (hm : m ∈ matchers) (buf : List Nat)
    (h : buf.length < 2) : m.Match buf = ("", "") := by
  have hb : buf = [] ∨ ∃ b, buf = [b] := by
    cases buf with
    | nil => exact Or.inl rfl
    | cons b t =>
      cases t with
      | nil => exact Or.inr ⟨b, rfl⟩
      | cons c t2 => exact absurd h (by simp)
  fin_cases hm <;> rcases hb with rfl | ⟨b, rfl⟩ <;>
    simp [Matcher.Match, maskedMatch, webmOrMKVMatch, mp4Match, ebmlHeader,
      List.isPrefixOf]

lemma matchLoop_short (buf : List Nat) (h : buf.length < 2) :
    matchLoop matchers buf = ("", "") :=
  matchLoop_all_empty matchers buf (fun m hm => match_of_short m hm buf h)

/-! ### C1 -/

/-- C1 counterexample: the two-byte input `"BM"` is shorter than 4 bytes,
yet detection succeeds with `image/bmp` instead of failing with the
octet-stream sentinel, because the bmp signature is only 2 bytes long. -/
theorem c1_counterexample :
    ([0x42, 0x4D] : List Nat).length < 4 ∧
    detectMimeType (some [0x42, 0x4D]) ⟨[], none⟩ none = ("image/bmp", "bmp", none) := by
  exact ⟨by decide, by decide⟩

/-- C1 (amended): for every input shorter than 2 bytes, every matcher in
the built-in registry returns an empty label, and detection fails with
`UnsupportedMIMEError` carrying the sentinel `"application/octet-stream"`. -/
theorem c1_short_input (buf : List Nat) (rs : ReadSeeker)
    (accepted : Option (String → Bool)) (h : buf.length < 2) :
    (∀ m ∈ matchers, m.Match buf = ("", "")) ∧
    detectMimeType (some buf) rs accepted =
      ("", "", some (GoError.unsupportedMIME "application/octet-stream")) := by
  refine ⟨fun m hm => match_of_short m hm buf h, ?_⟩
  have ht : buf.take 512 = buf := List.take_of_length_le (by omega)
  simp [detectMimeType, classify, ht, matchLoop_short buf h]

/-- C1 witness: the amended theorem applied to the one-byte input `[0x2A]`. -/
theorem c1_witness :
    detectMimeType (some [0x2A]) ⟨[], none⟩ none =
      ("", "", some (GoError.unsupportedMIME "application/octet-stream")) :=
  (c1_short_input [0x2A] ⟨[], none⟩ none (by decide)).2

/-! ### C2 -/

lemma classify_err (buf : List Nat) (accepted : Option (String → Bool))
    (e : GoError) (h : (classify buf accepted).2.2 = some e) :
    e.isUnsupportedMIME = true ∧ e.message = "unsupported MIME type: " ++ e.label := by
  unfold classify at h
  by_cases hm : (matchLoop matchers buf).1 = ""
  · simp [hm] at h
    subst h
    exact ⟨rfl, rfl⟩
  · simp [hm] at h
    rcases accepted with _ | acc
    · simp at h
    · simp at h
      by_cases ha : acc (matchLoop matchers buf).1 = true
      · simp [ha] at h
      · simp [Bool.not_eq_true] at ha
        simp [ha] at h
        subst h
        exact ⟨rfl, rfl⟩

/-- C2 counterexample: a stream whose single read fails makes
`detectMimeType` return the read error verbatim, which is not an
`UnsupportedMIMEError`. -/
theorem c2_counterexample :
    detectMimeType none ⟨[], some (.ioError "disk read failed")⟩ none
      = ("", "", some (GoError.ioError "disk read failed")) ∧
    (GoError.ioError "disk read failed").isUnsupportedMIME = false :=
  ⟨rfl, rfl⟩

/-- C2 (amended): every failure produced by detection itself (a supplied
buffer, or a stream whose single read succeeds) is an
`UnsupportedMIMEError` rendered exactly as `"unsupported MIME type: "`
followed by its label, and so is the failure produced by dispatch's own
fallback branch; however, detect propagates a failed stream read's error
verbatim, and dispatch returns override/category handler results
unmodified. -/
theorem c2_error_surface :
    (∀ (buf : Option (List Nat)) (rs : ReadSeeker)
        (accepted : Option (String → Bool)) (e : GoError),
      (buf = none → rs.readErr = none) →
      (detectMimeType buf rs accepted).2.2 = some e →
      e.isUnsupportedMIME = true ∧
        e.message = "unsupported MIME type: " ++ e.label) ∧
    (∀ (procImage procAudio procVideo : Processor)
        (mimeProcessors : String → Option Processor)
        (src : Source) (opts : Options) (e : GoError),
      mimeProcessors src.mime = none →
      src.mime ∉ imageMimes → src.mime ∉ audioMimes → src.mime ∉ videoMimes →
      (processFile procImage procAudio procVideo mimeProcessors src opts).2.2 = some e →
      e.isUnsupportedMIME = true ∧
        e.message = "unsupported MIME type: " ++ e.label) := by
  constructor
  · intro buf rs accepted e hbr h
    rcases buf with _ | b
    · have hre : rs.readErr = none := hbr rfl
      rw [detectMimeType] at h
      rw [hre] at h
      exact classify_err _ _ _ h
    · rw [detectMimeType] at h
      exact classify_err _ _ _ h
  · intro pI pA pV procs src opts e hov h1 h2 h3 h
    rw [processFile, hov] at h
    simp [h1, h2, h3] at h
    subst h
    exact ⟨rfl, rfl⟩

/-- C2 witness: the amended theorem applied to an unrecognized buffer and
to dispatch with an empty override map and an uncategorized label. -/
theorem c2_witness :
    ((GoError.unsupportedMIME "application/octet-stream").isUnsupportedMIME = true ∧
      (GoError.unsupportedMIME "application/octet-stream").message =
        "unsupported MIME type: " ++
          (GoError.unsupportedMIME "application/octet-stream").label) ∧
    ((GoError.unsupportedMIME "text/plain").isUnsupportedMIME = true ∧
      (GoError.unsupportedMIME "text/plain").message =
        "unsupported MIME type: " ++ (GoError.unsupportedMIME "text/plain").label) := by
  constructor
  · exact c2_error_surface.1 (some []) ⟨[], none⟩ none _ (fun hc => nomatch hc) rfl
  · exact c2_error_surface.2 (fun s _ => (s, zeroThumbnail, none))
      (fun s _ => (s, zeroThumbnail, none)) (fun s _ => (s, zeroThumbnail, none))
      (fun _ => none) ⟨"text/plain", []⟩ ⟨⟩ _ rfl (by decide) (by decide) (by decide) rfl

/-! ### C3 -/

lemma classify_success (buf : List Nat) (h : (matchLoop matchers buf).1 ≠ "") :
    classify buf none = ((matchLoop matchers buf).1, (matchLoop matchers buf).2, none) := by
  unfold classify
  simp [h]

lemma matchLoop_eq_of_first (buf : List Nat) :
    ∀ (ms : List Matcher) (i : Nat), i < ms.length →
      (∀ k, k < i → (ms.getD k .mp4Sig).Match buf = ("", "")) →
      ((ms.getD i .mp4Sig).Match buf).1 ≠ "" →
      matchLoop ms buf = (ms.getD i .mp4Sig).Match buf := by
  intro ms
  induction ms with
  | nil => intro i hlen; exact absurd hlen (by simp)
  | cons m ms ih =>
    intro i hlen hbefore hi
    cases i with
    | zero =>
      simp only [List.getD_cons_zero] at hi ⊢
      cases ms with
      | nil => simp [matchLoop]
      | cons m2 ms2 => simp [matchLoop, hi]
    | succ n =>
      have h0 : m.Match buf = ("", "") := by
        simpa using hbefore 0 (Nat.succ_pos n)
      simp only [List.getD_cons_succ] at hi ⊢
      cases ms with
      | nil => exact absurd hlen (by simp)
      | cons m2 ms2 =>
        have hstep : matchLoop (m :: m2 :: ms2) buf = matchLoop (m2 :: ms2) buf := by
          simp [matchLoop, h0]
        rw [hstep]
        exact ih n (by simpa using hlen)
          (fun k hk => by simpa using hbefore (k + 1) (by omega)) hi

/-- C3: when the matchers at registry positions `i < j` both match the
prefix and no matcher before `i` matches, detection returns the label and
extension of the earlier matcher `i` — evaluation stops at the first
matcher returning a non-empty label, so the later matcher `j` is never
consulted for the result. -/
theorem c3_first_match_wins (buf : List Nat) (rs : ReadSeeker) (i j : Nat)
    (hij : i < j) (hj : j < matchers.length)
    (hi : ((matchers.getD i .mp4Sig).Match buf).1 ≠ "")
    (_hjm : ((matchers.getD j .mp4Sig).Match buf).1 ≠ "")
    (hbefore : ∀ k, k < i → (matchers.getD k .mp4Sig).Match buf = ("", ""))
    (hlen : buf.length ≤ 512) :
    matchLoop matchers buf = (matchers.getD i .mp4Sig).Match buf ∧
    detectMimeType (some buf) rs none =
      (((matchers.getD i .mp4Sig).Match buf).1,
        ((matchers.getD i .mp4Sig).Match buf).2, none) := by
  have hml : matchLoop matchers buf = (matchers.getD i .mp4Sig).Match buf :=
    matchLoop_eq_of_first buf matchers i (by omega) hbefore hi
  refine ⟨hml, ?_⟩
  have ht : buf.take 512 = buf := List.take_of_length_le hlen
  rw [detectMimeType, ht, classify_success buf (by rw [hml]; exact hi), hml]

/-- C3 witness: a 20-byte `ftyp` box with an `mp42` brand satisfies both
the `mp4Sig` matcher (position 9) and the QuickTime exact signature
(position 19); detection returns `video/mp4`, the earlier matcher's label. -/
theorem c3_witness :
    detectMimeType
        (some ([0x00, 0x00, 0x00, 0x14, 0x66, 0x74, 0x79, 0x70, 0x6D, 0x70,
          0x34, 0x32, 0x61, 0x61, 0x61, 0x61, 0x61, 0x61, 0x61, 0x61]))
        ⟨[], none⟩ none = ("video/mp4", "mp4", none) := by
  have h := c3_first_match_wins
    [0x00, 0x00, 0x00, 0x14, 0x66, 0x74, 0x79, 0x70, 0x6D, 0x70,
      0x34, 0x32, 0x61, 0x61, 0x61, 0x61, 0x61, 0x61, 0x61, 0x61]
    ⟨[], none⟩ 9 19 (by decide) (by decide)
    (by simp [matchers, Matcher.Match, mp4Match, mp4Loop, be32, mp4Bytes, ftypBytes])
    (by decide) (by decide) (by decide)
  rw [h.2]
  have hM : (matchers.getD 9 Matcher.mp4Sig).Match
      [0x00, 0x00, 0x00, 0x14, 0x66, 0x74, 0x79, 0x70, 0x6D, 0x70,
        0x34, 0x32, 0x61, 0x61, 0x61, 0x61, 0x61, 0x61, 0x61, 0x61]
      = ("video/mp4", "mp4") := by
    simp [matchers, Matcher.Match, mp4Match, mp4Loop, be32, mp4Bytes, ftypBytes]
  rw [hM]

/-! ### C4 -/

/-- C4: detection inspects at most the first 512 bytes.  A supplied
buffer is truncated to 512 bytes before matching; a stream whose single
read succeeds is classified on the first 512 bytes the read can deliver;
and appending bytes after position 512 never changes the result. -/
theorem c4_bounded_512 (b : List Nat) (rs : ReadSeeker)
    (accepted : Option (String → Bool)) :
    detectMimeType (some b) rs accepted = classify (b.take 512) accepted ∧
    (rs.readErr = none →
      detectMimeType none rs accepted = classify (rs.data.take 512) accepted) ∧
    (b.length = 512 → ∀ extra,
      detectMimeType (some (b ++ extra)) rs accepted =
        detectMimeType (some b) rs accepted) := by
  refine ⟨rfl, ?_, ?_⟩
  · intro h
    rw [detectMimeType, h]
  · intro hlen extra
    have ht : (b ++ extra).take 512 = b.take 512 :=
      List.take_append_of_le_length (by omega)
    rw [detectMimeType, detectMimeType, ht]

/-- C4 witness: the theorem applied to a 512-byte buffer, a stream
delivering the same bytes, and a one-byte extension of the buffer. -/
theorem c4_witness :
    detectMimeType none ⟨List.replicate 512 0, none⟩ none =
      classify ((List.replicate 512 (0 : Nat)).take 512) none ∧
    detectMimeType (some (List.replicate 512 0 ++ [7])) ⟨List.replicate 512 0, none⟩ none =
      detectMimeType (some (List.replicate 512 0)) ⟨List.replicate 512 0, none⟩ none :=
  ⟨(c4_bounded_512 (List.replicate 512 0) ⟨List.replicate 512 0, none⟩ none).2.1 rfl,
    (c4_bounded_512 (List.replicate 512 0) ⟨List.replicate 512 0, none⟩ none).2.2
      (List.length_replicate 512 0) [7]⟩

/-! ### C5 -/

lemma classify_cases (buf : List Nat) (acc : Option (String → Bool)) :
    ((classify buf acc).1 = "" →
      (classify buf acc).2.2 = some (GoError.unsupportedMIME "application/octet-stream")) ∧
    (∀ f, acc = some f → (classify buf acc).1 ≠ "" → f (classify buf acc).1 = false →
      (classify buf acc).2.2 = some (GoError.unsupportedMIME (classify buf acc).1)) ∧
    (∀ f, acc = some f → (classify buf acc).1 ≠ "" → f (classify buf acc).1 = true →
      (classify buf acc).2.2 = none) ∧
    (acc = none → (classify buf acc).1 ≠ "" → (classify buf acc).2.2 = none) ∧
    ((classify buf acc).2.2 = none ∨
      (classify buf acc).2.2 = some (GoError.unsupportedMIME "application/octet-stream") ∨
      (classify buf acc).2.2 = some (GoError.unsupportedMIME (classify buf acc).1)) := by
  unfold classify
  by_cases hm : (matchLoop matchers buf).1 = ""
  · simp [hm]
  · rcases acc with _ | f
    · simp [hm]
    · by_cases hf : f (matchLoop matchers buf).1 = true
      · simp [hm, hf]
      · simp only [Bool.not_eq_true] at hf
        simp [hm, hf]

/-- C5 counterexample: a stream whose single read fails produces a fourth
outcome — the read error itself, which is not an `UnsupportedMIMEError`
of any label — so the three listed outcomes are not exhaustive. -/
theorem c5_counterexample :
    detectMimeType none ⟨[0x42, 0x4D], some (.ioError "connection reset")⟩ none
      = ("", "", some (GoError.ioError "connection reset")) ∧
    (GoError.ioError "connection reset").isUnsupportedMIME = false :=
  ⟨rfl, rfl⟩

/-- C5 (amended): whenever a buffer is supplied, or a stream is supplied
and its single read succeeds, detection has exactly three outcomes: no
match fails with the octet-stream sentinel; a match excluded by a
supplied accept set fails with the matched label; otherwise detection
succeeds with no error.  When the stream read fails, detect instead
returns that read error verbatim. -/
theorem c5_outcomes (buf : Option (List Nat)) (rs : ReadSeeker)
    (acc : Option (String → Bool)) (h : buf = none → rs.readErr = none) :
    ((detectMimeType buf rs acc).1 = "" →
      (detectMimeType buf rs acc).2.2 =
        some (GoError.unsupportedMIME "application/octet-stream")) ∧
    (∀ f, acc = some f → (detectMimeType buf rs acc).1 ≠ "" →
      f (detectMimeType buf rs acc).1 = false →
      (detectMimeType buf rs acc).2.2 =
        some (GoError.unsupportedMIME (detectMimeType buf rs acc).1)) ∧
    (∀ f, acc = some f → (detectMimeType buf rs acc).1 ≠ "" →
      f (detectMimeType buf rs acc).1 = true →
      (detectMimeType buf rs acc).2.2 = none) ∧
    (acc = none → (detectMimeType buf rs acc).1 ≠ "" →
      (detectMimeType buf rs acc).2.2 = none) ∧
    ((detectMimeType buf rs acc).2.2 = none ∨
      (detectMimeType buf rs acc).2.2 =
        some (GoError.unsupportedMIME "application/octet-stream") ∨
      (detectMimeType buf rs acc).2.2 =
        some (GoError.unsupportedMIME (detectMimeType buf rs acc).1)) := by
  rcases buf with _ | b
  · have hre : rs.readErr = none := h rfl
    have hred : detectMimeType none rs acc = classify (rs.data.take 512) acc := by
      rw [detectMimeType, hre]
    rw [hred]
    exact classify_cases (rs.data.take 512) acc
  · have hred : detectMimeType (some b) rs acc = classify (b.take 512) acc := rfl
    rw [hred]
    exact classify_cases (b.take 512) acc

/-- C5 witness: a JPEG-signature buffer against an accept set containing
only `image/png` fails with the detected label `image/jpeg`, via the
accept-set conjunct of the amended theorem. -/
theorem c5_witness :
    (detectMimeType (some [0xFF, 0xD8, 0xFF]) ⟨[], none⟩
        (some fun m => m == "image/png")).2.2 =
      some (GoError.unsupportedMIME
        (detectMimeType (some [0xFF, 0xD8, 0xFF]) ⟨[], none⟩
          (some fun m => m == "image/png")).1) :=
  (c5_outcomes (some [0xFF, 0xD8, 0xFF]) ⟨[], none⟩
      (some fun m => m == "image/png") (fun hc => nomatch hc)).2.1
    (fun m => m == "image/png") rfl (by decide) (by decide)

/-! ### C6 -/

lemma mp4Loop_true_iff (data : List Nat) (boxSize : Nat) (start : Nat) :
    mp4Loop data boxSize start = true ↔
      ∃ st, start ≤ st ∧ st < boxSize ∧ (st - start) % 4 = 0 ∧ st ≠ 12 ∧
        (data.drop st).take 3 = mp4Bytes := by
  have key : ∀ n s0, boxSize - s0 ≤ n →
      (mp4Loop data boxSize s0 = true ↔
        ∃ st, s0 ≤ st ∧ st < boxSize ∧ (st - s0) % 4 = 0 ∧ st ≠ 12 ∧
          (data.drop st).take 3 = mp4Bytes) := by
    intro n
    induction n with
    | zero =>
      intro s0 hn
      have hge : ¬ s0 < boxSize := by omega
      rw [mp4Loop, if_neg hge]
      constructor
      · intro hf; cases hf
      · rintro ⟨st, h1, h2, -, -, -⟩; exact absurd h2 (by omega)
    | succ n ih =>
      intro s0 hn
      by_cases hlt : s0 < boxSize
      · rw [mp4Loop, if_pos hlt]
        by_cases h12 : s0 = 12
        · subst h12
          rw [if_pos rfl, ih 16 (by omega)]
          constructor
          · rintro ⟨st, h1, h2, h3, h4, h5⟩
            exact ⟨st, by omega, h2, by omega, h4, h5⟩
          · rintro ⟨st, h1, h2, h3, h4, h5⟩
            exact ⟨st, by omega, h2, by omega, h4, h5⟩
        · rw [if_neg h12]
          by_cases hch : (data.drop s0).take 3 = mp4Bytes
          · rw [if_pos hch]
            constructor
            · intro _
              exact ⟨s0, Nat.le_refl _, hlt, by omega, h12, hch⟩
            · intro _; rfl
          · rw [if_neg hch, ih (s0 + 4) (by omega)]
            constructor
            · rintro ⟨st, h1, h2, h3, h4, h5⟩
              exact ⟨st, by omega, h2, by omega, h4, h5⟩
            · rintro ⟨st, h1, h2, h3, h4, h5⟩
              have hne : st ≠ s0 := fun he => hch (he ▸ h5)
              exact ⟨st, by omega, h2, by omega, h4, h5⟩
      · rw [mp4Loop, if_neg hlt]
        constructor
        · intro hf; cases hf
        · rintro ⟨st, h1, h2, -, -, -⟩; exact absurd h2 (by omega)
  exact key (boxSize - start) start (Nat.le_refl _)

/-- C6: the MP4 matcher returns `video/mp4` exactly when the prefix has
at least 12 bytes, the big-endian box size is a multiple of 4 not
exceeding the prefix length, bytes 4..8 are `"ftyp"`, and some
4-byte-aligned offset from 8 up to the box size other than 12 starts
with the 3 bytes `"mp4"`; in every other case it returns no match. -/
theorem c6_mp4_characterization (data : List Nat) :
    (mp4Match data = ("video/mp4", "mp4") ↔
      12 ≤ data.length ∧ be32 data % 4 = 0 ∧ be32 data ≤ data.length ∧
        (data.drop 4).take 4 = ftypBytes ∧
        ∃ st, 8 ≤ st ∧ st < be32 data ∧ st % 4 = 0 ∧ st ≠ 12 ∧
          (data.drop st).take 3 = mp4Bytes) ∧
    (mp4Match data = ("video/mp4", "mp4") ∨ mp4Match data = ("", "")) := by
  constructor
  · rw [mp4Match]
    by_cases h12 : data.length < 12
    · rw [if_pos h12]
      constructor
      · intro he; exact absurd he (by decide)
      · rintro ⟨hl, -⟩; exact absurd hl (by omega)
    · rw [if_neg h12]
      by_cases hno : be32 data % 4 ≠ 0 ∨ data.length < be32 data ∨
          (data.drop 4).take 4 ≠ ftypBytes
      · rw [if_pos hno]
        constructor
        · intro he; exact absurd he (by decide)
        · rintro ⟨-, ha, hb, hc, -⟩
          rcases hno with h | h | h
          · exact absurd ha h
          · exact absurd hb (by omega)
          · exact absurd hc h
      · rw [if_neg hno]
        push_neg at hno
        obtain ⟨ha, hb, hc⟩ := hno
        by_cases hl : mp4Loop data (be32 data) 8 = true
        · rw [if_pos hl]
          rw [mp4Loop_true_iff] at hl
          constructor
          · intro _
            obtain ⟨st, h1, h2, h3, h4, h5⟩ := hl
            exact ⟨by omega, ha, by omega, hc, st, h1, h2, by omega, h4, h5⟩
          · intro _; rfl
        · rw [if_neg hl]
          constructor
          · intro he; exact absurd he (by decide)
          · rintro ⟨-, -, -, -, st, h1, h2, h3, h4, h5⟩
            exact absurd ((mp4Loop_true_iff data (be32 data) 8).mpr
              ⟨st, h1, h2, by omega, h4, h5⟩) hl
  · rw [mp4Match]
    split
    · exact Or.inr rfl
    · split
      · exact Or.inr rfl
      · split
        · exact Or.inl rfl
        · exact Or.inr rfl

/-- C6 witness: a 24-byte `ftyp` box (size 24, major brand `isom`) with
compatible brand `mp42` at offset 16 matches as `video/mp4`. -/
theorem c6_witness :
    mp4Match [0x00, 0x00, 0x00, 0x18, 0x66, 0x74, 0x79, 0x70, 0x69, 0x73,
        0x6F, 0x6D, 0x00, 0x00, 0x00, 0x00, 0x6D, 0x70, 0x34, 0x32, 0x00,
        0x00, 0x00, 0x00] = ("video/mp4", "mp4") :=
  (c6_mp4_characterization _).1.mpr
    ⟨by decide, by decide, by decide, by decide, 16,
      by decide, by decide, by decide, by decide, by decide⟩

/-! ### C7 -/

lemma containsBytes_iff_occurs (needle hay : List Nat) :
    containsBytes needle hay = true ↔ needle <:+: hay := by
  induction hay with
  | nil =>
    rw [containsBytes, isPrefixOf_eq_true_iff, List.infix_nil]
    exact ⟨fun h => List.prefix_nil.mp h, fun h => h ▸ List.nil_prefix⟩
  | cons c t ih =>
    rw [containsBytes, Bool.or_eq_true, isPrefixOf_eq_true_iff, ih,
      List.infix_cons_iff]

/-- C7: the WebM/MKV matcher returns no match for prefixes shorter than
8 bytes or lacking the EBML header, regardless of any `"webm"` or
`"matroska"` occurrence; with the header present it returns `video/webm`
when `"webm"` occurs in `data[4:]`, else `video/x-matroska` when
`"matroska"` occurs there, else no match, so `"webm"` takes priority. -/
theorem c7_webm_characterization (data : List Nat) :
    (data.length < 8 ∨ ¬ ebmlHeader.isPrefixOf data → webmOrMKVMatch data = ("", "")) ∧
    (8 ≤ data.length → ebmlHeader.isPrefixOf data →
      (webmBytes <:+: data.drop 4 → webmOrMKVMatch data = ("video/webm", "webm")) ∧
      (¬ webmBytes <:+: data.drop 4 → matroskaBytes <:+: data.drop 4 →
        webmOrMKVMatch data = ("video/x-matroska", "mkv")) ∧
      (¬ webmBytes <:+: data.drop 4 → ¬ matroskaBytes <:+: data.drop 4 →
        webmOrMKVMatch data = ("", ""))) := by
  constructor
  · intro h
    rw [webmOrMKVMatch, if_pos h]
  · intro h8 hpre
    have hcond : ¬ (data.length < 8 ∨ ¬ ebmlHeader.isPrefixOf data) := by
      push_neg
      exact ⟨by omega, hpre⟩
    refine ⟨fun hw => ?_, fun hnw hm => ?_, fun hnw hnm => ?_⟩
    · rw [webmOrMKVMatch, if_neg hcond,
        if_pos ((containsBytes_iff_occurs webmBytes (data.drop 4)).mpr hw)]
    · have hw : ¬ containsBytes webmBytes (data.drop 4) = true :=
        fun hc => hnw ((containsBytes_iff_occurs webmBytes (data.drop 4)).mp hc)
      rw [webmOrMKVMatch, if_neg hcond, if_neg hw,
        if_pos ((containsBytes_iff_occurs matroskaBytes (data.drop 4)).mpr hm)]
    · have hw : ¬ containsBytes webmBytes (data.drop 4) = true :=
        fun hc => hnw ((containsBytes_iff_occurs webmBytes (data.drop 4)).mp hc)
      have hm : ¬ containsBytes matroskaBytes (data.drop 4) = true :=
        fun hc => hnm ((containsBytes_iff_occurs matroskaBytes (data.drop 4)).mp hc)
      rw [webmOrMKVMatch, if_neg hcond, if_neg hw, if_neg hm]

/-- C7 witness: an EBML header followed by both `"webm"` and `"matroska"`
matches as `video/webm`, showing the priority of the `"webm"` check. -/
theorem c7_witness :
    webmOrMKVMatch ([0x1A, 0x45, 0xDF, 0xA3, 0x77, 0x65, 0x62, 0x6D, 0x6D,
      0x61, 0x74, 0x72, 0x6F, 0x73, 0x6B, 0x61]) = ("video/webm", "webm") :=
  ((c7_webm_characterization _).2 (by decide) (by decide)).1 (by decide)

/-! ### C8 -/

/-- C8: for every masked matcher, changing the data at any position whose
mask byte is zero (or any position beyond the mask) never changes the
match outcome; and every prefix shorter than the mask yields no match. -/
theorem c8_masked_ignores_zero_mask (ext mime : String) (mask pat data : List Nat)
    (i b : Nat) (hmask : mask.getD i 0 = 0) :
    Matcher.Match (.maskedSig ext mime mask pat) (data.set i b) =
      Matcher.Match (.maskedSig ext mime mask pat) data ∧
    (data.length < mask.length →
      Matcher.Match (.maskedSig ext mime mask pat) data = ("", "")) := by
  constructor
  · have hcond : (∀ j, j < mask.length →
        (data.set i b).getD j 0 &&& mask.getD j 0 = pat.getD j 0) ↔
        (∀ j, j < mask.length → data.getD j 0 &&& mask.getD j 0 = pat.getD j 0) := by
      apply forall_congr'
      intro j
      apply imp_congr_right
      intro hj
      by_cases hji : j = i
      · subst hji
        rw [hmask]
        simp
      · have hset : (data.set i b).getD j 0 = data.getD j 0 := by
          rw [List.getD_eq_getElem?_getD, List.getD_eq_getElem?_getD,
            List.getElem?_set_ne (fun he => hji he.symm)]
        rw [hset]
    simp only [Matcher.Match, maskedMatch, List.length_set]
    exact if_congr Iff.rfl rfl (if_congr hcond rfl rfl)
  · intro h
    simp only [Matcher.Match, maskedMatch]
    rw [if_pos h]

/-- C8 witness: the WebP masked matcher ignores position 4 (a RIFF size
byte, mask zero): overwriting it with `0x99` leaves the match outcome
unchanged; and a 2-byte prefix, shorter than the 14-byte mask, fails. -/
theorem c8_witness :
    Matcher.Match
        (.maskedSig "webp" "image/webp"
          [0xFF, 0xFF, 0xFF, 0xFF, 0x00, 0x00, 0x00, 0x00, 0xFF, 0xFF, 0xFF, 0xFF, 0xFF, 0xFF]
          [0x52, 0x49, 0x46, 0x46, 0x00, 0x00, 0x00, 0x00, 0x57, 0x45, 0x42, 0x50, 0x56, 0x50])
        (([0x52, 0x49, 0x46, 0x46, 0x01, 0x02, 0x03, 0x04, 0x57, 0x45, 0x42,
          0x50, 0x56, 0x50, 0x38, 0x20]).set 4 0x99) =
      Matcher.Match
        (.maskedSig "webp" "image/webp"
          [0xFF, 0xFF, 0xFF, 0xFF, 0x00, 0x00, 0x00, 0x00, 0xFF, 0xFF, 0xFF, 0xFF, 0xFF, 0xFF]
          [0x52, 0x49, 0x46, 0x46, 0x00, 0x00, 0x00, 0x00, 0x57, 0x45, 0x42, 0x50, 0x56, 0x50])
        [0x52, 0x49, 0x46, 0x46, 0x01, 0x02, 0x03, 0x04, 0x57, 0x45, 0x42,
          0x50, 0x56, 0x50, 0x38, 0x20] ∧
    Matcher.Match
        (.maskedSig "webp" "image/webp"
          [0xFF, 0xFF, 0xFF, 0xFF, 0x00, 0x00, 0x00, 0x00, 0xFF, 0xFF, 0xFF, 0xFF, 0xFF, 0xFF]
          [0x52, 0x49, 0x46, 0x46, 0x00, 0x00, 0x00, 0x00, 0x57, 0x45, 0x42, 0x50, 0x56, 0x50])
        [0x52, 0x49] = ("", "") :=
  ⟨(c8_masked_ignores_zero_mask "webp" "image/webp"
      [0xFF, 0xFF, 0xFF, 0xFF, 0x00, 0x00, 0x00, 0x00, 0xFF, 0xFF, 0xFF, 0xFF, 0xFF, 0xFF]
      [0x52, 0x49, 0x46, 0x46, 0x00, 0x00, 0x00, 0x00, 0x57, 0x45, 0x42, 0x50, 0x56, 0x50]
      [0x52, 0x49, 0x46, 0x46, 0x01, 0x02, 0x03, 0x04, 0x57, 0x45, 0x42,
        0x50, 0x56, 0x50, 0x38, 0x20] 4 0x99 (by decide)).1,
    (c8_masked_ignores_zero_mask "webp" "image/webp"
      [0xFF, 0xFF, 0xFF, 0xFF, 0x00, 0x00, 0x00, 0x00, 0xFF, 0xFF, 0xFF, 0xFF, 0xFF, 0xFF]
      [0x52, 0x49, 0x46, 0x46, 0x00, 0x00, 0x00, 0x00, 0x57, 0x45, 0x42, 0x50, 0x56, 0x50]
      [0x52, 0x49] 4 0 (by decide)).2 (by decide)⟩

/-! ### C9 -/

/-- C9: when an override processor is registered for the source's label,
dispatch invokes exactly that override and returns its result unmodified;
the result does not depend on the category handlers, so the category
handler is never invoked, even when the label belongs to a category. -/
theorem c9_override_precedence (procImage procAudio procVideo : Processor)
    (mimeProcessors : String → Option Processor) (src : Source) (opts : Options)
    (f : Processor) (h : mimeProcessors src.mime = some f) :
    processFile procImage procAudio procVideo mimeProcessors src opts = f src opts := by
  rw [processFile, h]

/-- C9 witness: an override registered for `image/png`, a label that also
belongs to the image category, is invoked instead of the image handler. -/
theorem c9_witness :
    processFile (fun s _ => (s, ⟨[0x77]⟩, none)) (fun s _ => (s, ⟨[0x78]⟩, none))
        (fun s _ => (s, ⟨[0x79]⟩, none))
        (fun m => if m = "image/png" then some (fun s _ => (s, ⟨[1, 2, 3]⟩, none)) else none)
        ⟨"image/png", [0x89]⟩ ⟨⟩ =
      (⟨"image/png", [0x89]⟩, ⟨[1, 2, 3]⟩, none) ∧
    "image/png" ∈ imageMimes := by
  constructor
  · exact c9_override_precedence (fun s _ => (s, ⟨[0x77]⟩, none))
      (fun s _ => (s, ⟨[0x78]⟩, none)) (fun s _ => (s, ⟨[0x79]⟩, none))
      (fun m => if m = "image/png" then some (fun s _ => (s, ⟨[1, 2, 3]⟩, none)) else none)
      ⟨"image/png", [0x89]⟩ ⟨⟩ (fun s _ => (s, ⟨[1, 2, 3]⟩, none)) rfl
  · decide

/-! ### C10 -/

/-- C10: when the source's label has no override and belongs to none of
the three categories, dispatch returns the source unchanged, the zero
thumbnail, and an `UnsupportedMIMEError` carrying that label. -/
theorem c10_default_branch (procImage procAudio procVideo : Processor)
    (mimeProcessors : String → Option Processor) (src : Source) (opts : Options)
    (hov : mimeProcessors src.mime = none)
    (h1 : src.mime ∉ imageMimes) (h2 : src.mime ∉ audioMimes)
    (h3 : src.mime ∉ videoMimes) :
    processFile procImage procAudio procVideo mimeProcessors src opts =
      (src, zeroThumbnail, some (GoError.unsupportedMIME src.mime)) := by
  rw [processFile, hov]
  simp [h1, h2, h3]

/-- C10 witness: the default branch applied to an uncategorized label. -/
theorem c10_witness :
    processFile (fun s _ => (s, ⟨[0x77]⟩, none)) (fun s _ => (s, ⟨[0x78]⟩, none))
        (fun s _ => (s, ⟨[0x79]⟩, none)) (fun _ => none) ⟨"text/html", [0x3C]⟩ ⟨⟩ =
      (⟨"text/html", [0x3C]⟩, zeroThumbnail,
        some (GoError.unsupportedMIME "text/html")) :=
  c10_default_branch (fun s _ => (s, ⟨[0x77]⟩, none)) (fun s _ => (s, ⟨[0x78]⟩, none))
    (fun s _ => (s, ⟨[0x79]⟩, none)) (fun _ => none) ⟨"text/html", [0x3C]⟩ ⟨⟩
    rfl (by decide) (by decide) (by decide)

end Thumbnailer
